import Mathlib

/-!
Verification of the BERDL JupyterHub spawn-lifecycle configuration.

This file gives a shallow embedding, in Lean 4, of the core functions of the
repository (`berdlhub/config/hooks.py`, `berdlhub/config/spark_connect_service.py`,
`berdlhub/api_utils/governance_utils.py`, `berdlhub/api_utils/spark_utils.py`,
`berdlhub/auth/kb_auth.py`) and proves theorems about them.  External I/O
(HTTP calls, the Kubernetes API, `os.environ`) is modelled by passing the
outcome of each call as an explicit argument; the mutable spawner environment
is modelled as a function from variable names to optional values; Python
exceptions are modelled with `Except` and an explicit exception datatype.
-/

/-! ## Characters and strings

Helpers used by `sanitize_k8s_name` (spark_connect_service.py) and by the
profile-slug generation in `hooks.py`.

Python's `str.lower()` applies the full Unicode case mapping: each character
lowers independently to a string of one or more characters (for example
U+0130 lowers to "i" followed by U+0307, *lengthening* the string, and
U+212A lowers to "k").  That table is not reproduced here; instead the
embedding of `sanitize_k8s_name` is parametrised over the per-character
mapping (`PyLower`), so every theorem about it holds for the real mapping by
instantiation.  The theorems below use at most one documented property of
the real mapping (`lowerFixesValid`: the kept class `[a-z0-9.-]` consists of
fixed points of `str.lower()`); concrete evaluations use the ASCII instance
`asciiLowerMap`, which agrees with `str.lower()` on ASCII strings. -/

/-- `c` is a lowercase ASCII letter or an ASCII digit (the class `[a-z0-9]`
of the regular expressions in `sanitize_k8s_name`); character order is
compared through the code point. -/
def isLowerAlnum (c : Char) : Bool :=
  ('a'.toNat ≤ c.toNat && c.toNat ≤ 'z'.toNat) ||
  ('0'.toNat ≤ c.toNat && c.toNat ≤ '9'.toNat)

/-- The character class `[a-z0-9.-]` kept by the first substitution of
`sanitize_k8s_name`. -/
def validChar (c : Char) : Bool :=
  isLowerAlnum c || c == '.' || c == '-'

/-- The ASCII fragment of Python's `str.lower()`, one character to one
character.  Exact on ASCII strings only: the full Unicode case mapping also
lowers non-ASCII characters and can expand one character to several.  Used
directly by the hook embeddings (profile-slug regeneration, skip-flag
comparison), whose claim conclusions do not depend on the case mapping: the
slug comparison only feeds hypotheses and concrete ASCII witnesses, and the
skip flag is compared against the ASCII literal "true". -/
def asciiLowerChar (c : Char) : Char :=
  if 'A'.toNat ≤ c.toNat && c.toNat ≤ 'Z'.toNat then Char.ofNat (c.toNat + 32) else c

/-- A per-character lowercase mapping as used by Python's `str.lower()`:
each character lowers independently to a (possibly longer) list of
characters.  `sanitize_k8s_name` is parametrised over this mapping. -/
def PyLower : Type := Char → List Char

/-- Python `str.lower()` on a character list, induced by a per-character
mapping. -/
def pyLower (low : PyLower) (l : List Char) : List Char :=
  l.flatMap low

/-- The one documented property of Python's `str.lower()` used by the
proofs: every character of the kept class `[a-z0-9.-]` (lowercase ASCII
letters, digits, dot, hyphen — all uncased or already lowercase) is a fixed
point of the case mapping. -/
def lowerFixesValid (low : PyLower) : Prop :=
  ∀ c, validChar c = true → low c = [c]

/-- The ASCII instance of the case mapping: agrees with Python's
`str.lower()` on every ASCII string. -/
def asciiLowerMap : PyLower := fun c => [asciiLowerChar c]

/-- The ASCII case mapping extended with the one expanding entry of
Python's `str.lower()` for U+0130 (LATIN CAPITAL LETTER I WITH DOT ABOVE):
it lowers to "i" followed by U+0307 (COMBINING DOT ABOVE), lengthening the
string.  Used to demonstrate that truncation can fire even for inputs of at
most 253 characters. -/
def dottedILowerMap : PyLower := fun c =>
  if c = Char.ofNat 304 then [Char.ofNat 105, Char.ofNat 775]
  else [asciiLowerChar c]

/-- `re.sub(r"[^a-z0-9.-]", "-", ·)`: each character outside the class is
replaced by a hyphen. -/
def replaceInvalid (l : List Char) : List Char :=
  l.map (fun c => if validChar c then c else '-')

/-- `re.sub(r"^[^a-z0-9]+", "", ·)`: strip the leading run of
non-alphanumeric characters. -/
def stripLeading (l : List Char) : List Char :=
  l.dropWhile (fun c => !isLowerAlnum c)

/-- `re.sub(r"[^a-z0-9]+$", "", ·)`: strip the trailing run of
non-alphanumeric characters. -/
def stripTrailing (l : List Char) : List Char :=
  (l.reverse.dropWhile (fun c => !isLowerAlnum c)).reverse

/-- `re.sub(r"-+", "-", ·)`: collapse each maximal run of hyphens to a single
hyphen. -/
def collapseDashes : List Char → List Char
  | [] => []
  | [c] => [c]
  | a :: b :: t =>
    if a == '-' && b == '-' then collapseDashes (b :: t)
    else a :: collapseDashes (b :: t)

/-- `l` has no two adjacent hyphens (the post-condition of the hyphen-run
collapse, used in the proofs below). -/
def noDoubleDash : List Char → Bool
  | a :: b :: t => !(a == '-' && b == '-') && noDoubleDash (b :: t)
  | _ => true

/-- The sanitisation pipeline of `sanitize_k8s_name` before truncation:
lowercase (with the given case mapping), replace invalid characters, strip
both ends, collapse hyphen runs. -/
def sanitizeCore (low : PyLower) (l : List Char) : List Char :=
  collapseDashes (stripTrailing (stripLeading (replaceInvalid
    (pyLower low l))))

/-- The full sanitisation pipeline on character lists: the core stages, then
truncation to 253 characters. -/
def sanitizeList (low : PyLower) (l : List Char) : List Char :=
  (sanitizeCore low l).take 253

/-- `sanitize_k8s_name` (spark_connect_service.py, lines 15-41),
parametrised over the case mapping of `str.lower()`. -/
def sanitize_k8s_name (low : PyLower) (name : String) : String :=
  ⟨sanitizeList low name.data⟩

example : sanitize_k8s_name asciiLowerMap "My_User.Name" = "my-user.name" := by decide
example : sanitize_k8s_name asciiLowerMap "--a--b--" = "a-b" := by decide
example : sanitize_k8s_name asciiLowerMap "a.b" = "a.b" := by decide

/-! ## Python exceptions and the spawner environment -/

/-- The Python exceptions that the embedded code can raise. -/
inductive PyExc where
  /-- `KeyError` from `os.environ[k]` or a missing dictionary key. -/
  | keyError (key : String)
  /-- `httpx.HTTPStatusError` from `response.raise_for_status()`. -/
  | httpStatusError (status : Nat)
  /-- A transport-level exception (network error, timeout). -/
  | transportError
  /-- Malformed body: `response.json()` raised. -/
  | jsonError
  /-- `ValueError` (toleration parsing, unpacking). -/
  | valueError (message : String)
  /-- `RuntimeError` (missing auth state / token in `hooks.py`). -/
  | runtimeError (message : String)
  /-- `TypeError` (a call that binds an unknown keyword argument). -/
  | typeError (message : String)
deriving DecidableEq

/-- A spawner's `environment` dictionary: variable name to optional value.
`none` means the key is absent. -/
def Env : Type := String → Option String

/-- `env[k] = v`. -/
def envSet (e : Env) (k v : String) : Env :=
  fun q => if q = k then some v else e q

/-- `env.pop(k, None)`. -/
def envPop (e : Env) (k : String) : Env :=
  fun q => if q = k then none else e q

/-- `env.update({...})` with the given key/value pairs (later pairs win). -/
def envUpdate (e : Env) (kvs : List (String × String)) : Env :=
  kvs.foldl (fun acc kv => envSet acc kv.1 kv.2) e

/-- `{**e, **overrides}`: a fresh dictionary in which the override pairs win
on key collision. -/
def envMergeList (e : Env) (overrides : List (String × String)) : Env :=
  fun q => match overrides.lookup q with
    | some v => some v
    | none => e q

/-- The empty environment. -/
def emptyEnv : Env := fun _ => none

/-! ## GovernanceUtils (governance_utils.py) -/

/-- An opening brace character, `\x7b`. -/
def lbrace : Char := Char.ofNat 123

/-- A closing brace character, `\x7d`. -/
def rbrace : Char := Char.ofNat 125

/-- `json_str.replace(lbrace, double lbrace).replace(rbrace, double rbrace)`:
escape braces so KubeSpawner template expansion leaves them alone. -/
def escapeBraces (s : String) : String :=
  ⟨s.data.flatMap (fun c =>
    if c = lbrace then [lbrace, lbrace]
    else if c = rbrace then [rbrace, rbrace]
    else [c])⟩

/-- The static configuration read from `os.environ` by
`set_governance_credentials`; `none` models an unset variable. -/
structure GovConfig where
  governance_api_url : Option String
  minio_endpoint_url : Option String
  minio_secure_flag : Option String
deriving DecidableEq

/-- The JSON body returned by the governance endpoint; each field is `none`
when the key is absent from the parsed object. -/
structure CredsJson where
  access_key : Option String
  secret_key : Option String
deriving DecidableEq

/-- Outcome of the `httpx` GET against `{gov_url}/credentials/`:
either the client raised, or a response arrived with a status code and a
body (`none` body models a body `response.json()` cannot parse). -/
inductive GovFetch where
  | raise
  | response (status : Nat) (body : Option CredsJson)
deriving DecidableEq

/-- The fixed user-safe error message of `set_governance_credentials`. -/
def minioErrorMessage : String :=
  "Failed to retrieve MinIO credentials. Please contact an administrator."

/-- `json.dumps` of the success `creds_data` dictionary (quote escaping
inside the values themselves is not modelled). -/
def credsJsonString (access secret endpoint : String) (secure : Bool) : String :=
  ⟨[lbrace]⟩ ++ "\"access_key\": \"" ++ access ++ "\", \"secret_key\": \"" ++ secret
    ++ "\", \"endpoint\": \"" ++ endpoint ++ "\", \"secure\": "
    ++ (if secure then "true" else "false") ++ ", \"error\": null" ++ ⟨[rbrace]⟩

/-- `json.dumps` of the failure `error_creds` dictionary. -/
def errorCredsJsonString : String :=
  ⟨[lbrace]⟩ ++ "\"access_key\": \"\", \"secret_key\": \"\", \"endpoint\": \"\", "
    ++ "\"secure\": false, \"error\": \"" ++ minioErrorMessage ++ "\"" ++ ⟨[rbrace]⟩

/-- The `try:` block of `GovernanceUtils.set_governance_credentials`
(governance_utils.py, lines 23-61): read configuration, fetch credentials,
and on success update the spawner environment.  Any raised exception is
returned as `.error`. -/
def govAttempt (cfg : GovConfig) (fetch : GovFetch) (env : Env) : Except PyExc Env := do
  let gov_url ← match cfg.governance_api_url with
    | some u => pure u
    | none => Except.error (PyExc.keyError "GOVERNANCE_API_URL")
  let minio_endpoint ← match cfg.minio_endpoint_url with
    | some u => pure u
    | none => Except.error (PyExc.keyError "MINIO_ENDPOINT_URL")
  let minio_secure := cfg.minio_secure_flag.getD "True"
  let _ := gov_url
  match fetch with
  | GovFetch.raise => Except.error PyExc.transportError
  | GovFetch.response status body =>
    -- `response.raise_for_status()`: raises unless the status is a 2xx success
    if status < 200 || 300 ≤ status then
      Except.error (PyExc.httpStatusError status)
    else
      match body with
      | none => Except.error PyExc.jsonError
      | some creds => do
        let access ← match creds.access_key with
          | some a => pure a
          | none => Except.error (PyExc.keyError "access_key")
        let secret ← match creds.secret_key with
          | some s => pure s
          | none => Except.error (PyExc.keyError "secret_key")
        let env := envUpdate env
          [("MINIO_ACCESS_KEY", access), ("MINIO_SECRET_KEY", secret),
           ("MINIO_ENDPOINT", minio_endpoint), ("MINIO_SECURE", minio_secure)]
        let env := envPop env "MINIO_CONFIG_ERROR"
        let env := envSet env "MINIO_CREDS_JSON"
          (escapeBraces (credsJsonString access secret minio_endpoint (minio_secure == "True")))
        pure env

/-- `GovernanceUtils.set_governance_credentials` (governance_utils.py,
lines 21-96): run the `try:` block; on any exception fall into the
`except Exception:` handler, which writes the denied credential bundle into
the environment.  The function is total: no exception escapes. -/
def set_governance_credentials (cfg : GovConfig) (fetch : GovFetch) (env : Env) : Env :=
  match govAttempt cfg fetch env with
  | Except.ok env' => env'
  | Except.error _ =>
    let env := envUpdate env
      [("MINIO_ACCESS_KEY", ""), ("MINIO_SECRET_KEY", ""),
       ("MINIO_ENDPOINT", ""), ("MINIO_SECURE", "False"),
       ("MINIO_CONFIG_ERROR", minioErrorMessage)]
    envSet env "MINIO_CREDS_JSON" (escapeBraces errorCredsJsonString)

/-! ## SparkClusterManager (spark_utils.py) -/

/-- `ClusterDefaults` (spark_utils.py, lines 19-27): container for default
cluster configuration values. -/
structure ClusterDefaults where
  worker_count : Nat := 2
  worker_cores : Nat := 1
  worker_memory : String := "10GiB"
  master_cores : Nat := 1
  master_memory : String := "2GiB"
deriving DecidableEq

/-- The fixed `PROFILES` table of `ClusterDefaults` (spark_utils.py,
lines 30-52). -/
def ClusterDefaults.PROFILES : List (String × ClusterDefaults) :=
  [("small", { worker_count := 1, worker_cores := 1, worker_memory := "2GiB",
               master_cores := 1, master_memory := "1GiB" }),
   ("medium", { worker_count := 4, worker_cores := 1, worker_memory := "8GiB",
                master_cores := 1, master_memory := "8GiB" }),
   ("large", { worker_count := 4, worker_cores := 1, worker_memory := "32GiB",
               master_cores := 1, master_memory := "16GiB" })]

/-- `ClusterDefaults.from_profile` (spark_utils.py, lines 66-73): look the
slug up in `PROFILES`; an unknown slug falls back to `"small"`. -/
def ClusterDefaults.from_profile (profile_slug : String) : ClusterDefaults :=
  match ClusterDefaults.PROFILES.lookup profile_slug with
  | some cfg => cfg
  | none =>
    -- `profile_slug = "small"  # fallback to default`
    (ClusterDefaults.PROFILES.lookup "small").getD {}

/-- `SparkClusterCreateResponse` from the generated cluster-manager client:
the parsed body of a creation response. -/
structure SparkClusterCreateResponse where
  cluster_id : String
  master_url : String
  master_ui_url : String
deriving DecidableEq

/-- `ClusterDeleteResponse` from the generated cluster-manager client. -/
structure ClusterDeleteResponse where
  message : String
deriving DecidableEq

/-- The payload of a raised `SparkClusterError`, by raise site:
`apiError` is `_raise_api_error` (operation, HTTP status, response content);
`masterUrlMissing` is the raise in `start_spark_cluster` whose message holds
only the parsed response; `transport` is an exception from the HTTP client
itself. -/
inductive SparkClusterErrorPayload where
  | apiError (operation : String) (status : Nat) (content : Option String)
  | masterUrlMissing (parsed : SparkClusterCreateResponse)
  | transport
deriving DecidableEq

/-- Outcome of the POST to `create_cluster_clusters_post`: the client raised,
or a response with status, optional parsed body and optional raw content. -/
inductive CreateFetch where
  | raise
  | response (status : Nat) (parsed : Option SparkClusterCreateResponse)
      (content : Option String)
deriving DecidableEq

/-- `SparkClusterManager.create_cluster` (spark_utils.py, lines 158-194):
succeed exactly on a 201 response with a truthy parsed body; otherwise
`_raise_api_error` raises `SparkClusterError` with the status and content. -/
def create_cluster (fetch : CreateFetch) : Except SparkClusterErrorPayload SparkClusterCreateResponse :=
  match fetch with
  | CreateFetch.raise => Except.error SparkClusterErrorPayload.transport
  | CreateFetch.response status (some parsed) content =>
    if status = 201 then Except.ok parsed
    else Except.error (SparkClusterErrorPayload.apiError "Cluster creation" status content)
  | CreateFetch.response status none content =>
    Except.error (SparkClusterErrorPayload.apiError "Cluster creation" status content)

/-- `SparkClusterManager.start_spark_cluster` (spark_utils.py, lines 238-266):
call `create_cluster`; raise `SparkClusterError` when the master URL is empty
or missing; on success write `SPARK_MASTER_URL` into the spawner environment
and return the master URL.  The `except` clause only logs and re-raises, so
errors propagate unchanged. -/
def start_spark_cluster (fetch : CreateFetch) (env : Env) :
    Except SparkClusterErrorPayload (String × Env) :=
  match create_cluster fetch with
  | Except.error e => Except.error e
  | Except.ok parsed =>
    if parsed.master_url = "" then
      Except.error (SparkClusterErrorPayload.masterUrlMissing parsed)
    else
      Except.ok (parsed.master_url, envSet env "SPARK_MASTER_URL" parsed.master_url)

/-- Outcome of the DELETE to `delete_cluster_clusters_delete`. -/
inductive DeleteFetch where
  | raise
  | response (status : Nat) (parsed : Option ClusterDeleteResponse)
      (content : Option String)
deriving DecidableEq

/-- The `try:` block of `stop_spark_cluster`: return the parsed result on
200/204; on any other status log and fall through (returning `none`); a
client exception is returned as `.error` for the handler. -/
def stopAttempt (fetch : DeleteFetch) : Except PyExc (Option ClusterDeleteResponse) :=
  match fetch with
  | DeleteFetch.raise => Except.error PyExc.transportError
  | DeleteFetch.response status parsed _content =>
    if status = 200 ∨ status = 204 then Except.ok parsed
    else Except.ok none

/-- `SparkClusterManager.stop_spark_cluster` (spark_utils.py, lines 196-236):
the surrounding `except Exception:` only logs, so every failure is swallowed
and the function returns `None`. -/
def stop_spark_cluster (fetch : DeleteFetch) : Except PyExc (Option ClusterDeleteResponse) :=
  match stopAttempt fetch with
  | Except.ok v => Except.ok v
  | Except.error _ => Except.ok none

/-! ## KBaseAuth (kb_auth.py) -/

/-- `AdminPermission` (kb_auth.py, lines 19-26). -/
inductive AdminPermission where
  | NONE
  | FULL
deriving DecidableEq

/-- `KBaseUser` (kb_auth.py, lines 29-34); the expiry is kept in epoch
milliseconds rather than as a `datetime`. -/
structure KBaseUser where
  user : String
  admin_perm : AdminPermission
  token : String
  expires : Option Nat
  mfa_status : Option String
deriving DecidableEq

/-- The JSON of the token-introspection GET (`api/V2/token`). -/
structure TokenData where
  expires : Option Nat
  mfa : Option String
deriving DecidableEq

/-- The JSON of the identity GET (`api/V2/me`): the custom role set and the
principal id (`none` when the key is absent). -/
structure MeData where
  customroles : List String
  user : Option String
deriving DecidableEq

/-- The errors `validate_token` can raise: `AuthenticationError` with its
HTTP-equivalent status and message (covering `InvalidTokenError` via status
401), and `ValueError` from the `_not_falsy` argument check. -/
inductive AuthFailure where
  | authError (status : Nat) (message : String)
  | notFalsyError
deriving DecidableEq

/-- `KBaseAuth` (kb_auth.py, lines 61-69): the configured full-admin and
approved role sets.  `make` models the `set(...)` calls of `__init__` by
erasing duplicates. -/
structure KBaseAuth where
  full_roles : List String
  approved_roles : List String

/-- `KBaseAuth.__init__`: `set(full_admin_roles)`, `set(approved_roles)`. -/
def KBaseAuth.make (full approved : List String) : KBaseAuth :=
  ⟨full.eraseDups, approved.eraseDups⟩

/-- Insert a string into an already-sorted list (ascending). -/
def insertSorted (s : String) : List String → List String
  | [] => [s]
  | t :: ts => if s ≤ t then s :: t :: ts else t :: insertSorted s ts

/-- Python `sorted(...)` on a list of strings. -/
def sortStrings (l : List String) : List String :=
  l.foldr insertSorted []

/-- Python `", ".join(...)`. -/
def joinComma : List String → String
  | [] => ""
  | [s] => s
  | s :: rest => s ++ ", " ++ joinComma rest

/-- The message of the 403 `AuthenticationError` of `validate_token`, built
from `", ".join(sorted(self._approved_roles))`. -/
def accessDeniedMessage (approved_roles : List String) : String :=
  "Access denied. Your account requires one of the following roles: "
    ++ joinComma (sortStrings approved_roles)
    ++ ". Please contact the KBASE or BERDL administrators for assistance."

/-- Python truthiness applied to `expires_ms`: `0` and a missing key both
leave `expires` as `None`. -/
def expiresOf (expires_ms : Option Nat) : Option Nat :=
  match expires_ms with
  | some ms => if ms = 0 then none else some ms
  | none => none

/-- `user_roles & other` is non-empty (Python set intersection truthiness). -/
def rolesIntersect (user_roles other : List String) : Bool :=
  user_roles.any (fun r => other.contains r)

/-- `KBaseAuth._get_role` (kb_auth.py, lines 114-118). -/
def KBaseAuth.get_role (auth : KBaseAuth) (roles : List String) : AdminPermission :=
  if rolesIntersect roles auth.full_roles then AdminPermission.FULL
  else AdminPermission.NONE

/-- `KBaseAuth.validate_token` (kb_auth.py, lines 71-112), with the outcomes
of the two authenticated GETs passed in as `token_data` and `me_data` (the
claims under verification concern the behaviour after both lookups have
returned 200 JSON).  Order of checks follows the source: `_not_falsy`,
expiry decoding, approved-role gate, `_get_role`, username check. -/
def validate_token (auth : KBaseAuth) (token : String)
    (token_data : TokenData) (me_data : MeData) : Except AuthFailure KBaseUser :=
  if token = "" then Except.error AuthFailure.notFalsyError
  else
    let expires := expiresOf token_data.expires
    let user_roles := me_data.customroles
    if ¬ rolesIntersect user_roles auth.approved_roles then
      Except.error (AuthFailure.authError 403 (accessDeniedMessage auth.approved_roles))
    else
      let admin_perm := auth.get_role user_roles
      let mfa_status := token_data.mfa
      match me_data.user with
      | none => Except.error (AuthFailure.authError 401 "Invalid token response - missing username")
      | some username =>
        if username = "" then
          Except.error (AuthFailure.authError 401 "Invalid token response - missing username")
        else
          Except.ok ⟨username, admin_perm, token, expires, mfa_status⟩

/-! ## Toleration parsing (hooks.py) -/

/-- `kubernetes.client.V1Toleration` restricted to the fields the code sets. -/
structure V1Toleration where
  key : String
  operator : String
  value : String
  effect : String
deriving DecidableEq

/-- Python `s.split(sep, 1)` when `sep` occurs in `s`: the part before the
first separator and the part after it. -/
def splitFirst (l : List Char) (sep : Char) : List Char × List Char :=
  (l.takeWhile (fun c => c ≠ sep), (l.dropWhile (fun c => c ≠ sep)).drop 1)

/-- The `try:` block of `parse_tolerations_from_env` for one stripped entry:
raise `ValueError` when `:` or `=` is missing, split on the first `:` then on
the first `=`, and build the toleration with `operator="Equal"`.  The
`key_value.split("=", 1)` unpacking raises `ValueError` when the `=` lies
after the `:` (a one-element split result). -/
def parseToleration (s : String) : Except PyExc V1Toleration :=
  if ¬ (s.contains ':' ∧ s.contains '=') then
    Except.error (PyExc.valueError "Missing : or = in toleration format")
  else
    let kvEffect := splitFirst s.data ':'
    let key_value := kvEffect.1
    let effect := kvEffect.2
    if key_value.contains '=' then
      let kv := splitFirst key_value '='
      Except.ok ⟨⟨kv.1⟩, "Equal", ⟨kv.2⟩, ⟨effect⟩⟩
    else
      Except.error (PyExc.valueError "not enough values to unpack")

/-- One iteration of the loop of `parse_tolerations_from_env`: strip the
entry, skip it when empty, otherwise run the `try:` block;
`except ValueError:` logs a warning and skips the entry, any other exception
would propagate. -/
def tolerationStep (acc : List V1Toleration) (part : String) :
    Except PyExc (List V1Toleration) :=
  let t := part.trim
  if t = "" then Except.ok acc
  else
    match parseToleration t with
    | Except.ok tol => Except.ok (acc ++ [tol])
    | Except.error (PyExc.valueError _) => Except.ok acc
    | Except.error e => Except.error e

/-- `parse_tolerations_from_env` (hooks.py, lines 170-191): split the
environment string on commas and run the loop body on each entry. -/
def parse_tolerations_from_env (tolerations_env : String) : Except PyExc (List V1Toleration) :=
  (tolerations_env.splitOn ",").foldlM tolerationStep []

/-! ## Profile selection and the spawn/stop hooks (hooks.py) -/

/-- One entry of `spawner.profile_list`, restricted to the keys
`_get_profile_environment` reads: the display name and
`kubespawner_override["environment"]` (an empty list models the `.get`
defaults for absent keys). -/
structure Profile where
  display_name : String
  override_environment : List (String × String)
deriving DecidableEq

/-- Python `str.lower()` on a whole string, ASCII fragment: used only for
the `BERDL_SKIP_SPAWN_HOOKS` comparison against the ASCII literal "true",
where the full case mapping and the ASCII one agree on whether the
comparison succeeds. -/
def asciiLowerString (s : String) : String :=
  ⟨s.data.map asciiLowerChar⟩

/-- Python `str.replace(a, b)` for single characters. -/
def replaceAllChar (l : List Char) (a b : Char) : List Char :=
  l.map (fun c => if c = a then b else c)

/-- Python `str.replace(a, "")` for a single character. -/
def removeAllChar (l : List Char) (a : Char) : List Char :=
  l.filter (fun c => c ≠ a)

/-- The slug regenerated from a profile display name
(hooks.py, lines 52-62): lowercase (ASCII fragment — the repo's display
names are ASCII, and the slug only feeds an equality test whose failure
leads to the fallback the theorems are about), spaces to dashes, drop
parentheses, commas and colons, plus signs to dashes, collapse dash runs. -/
def generated_slug (display_name : String) : String :=
  ⟨collapseDashes (removeAllChar (replaceAllChar (removeAllChar (removeAllChar
    (removeAllChar (replaceAllChar (display_name.data.map asciiLowerChar) ' ' '-')
      '(') ')') ',') '+' '-') ':')⟩

/-- The profile-selection logic of `_get_profile_environment`
(hooks.py, lines 24-72): with a non-empty profile list, match the slug from
`user_options["profile"]` against each regenerated slug; no key or no match
falls back to `profile_list[0]`. -/
def selectProfile (profile_list : List Profile) (options_profile : Option String) :
    Option Profile :=
  match profile_list with
  | [] => none
  | _ =>
    let selected := match options_profile with
      | some slug => profile_list.find? (fun p => generated_slug p.display_name = slug)
      | none => none
    match selected with
    | some p => some p
    | none => profile_list.head?

/-- `_get_profile_environment` (hooks.py, lines 24-77): the environment of
the selected profile's `kubespawner_override`, or `{}` when the profile list
is empty. -/
def get_profile_environment (profile_list : List Profile)
    (options_profile : Option String) : List (String × String) :=
  match selectProfile profile_list options_profile with
  | some p => p.override_environment
  | none => []

/-- `_get_auth_token` (hooks.py, lines 10-21): the outer `Option` models a
missing/empty `auth_state`, the inner one a missing `kbase_token` key; an
empty token string is falsy and also rejected. -/
def get_auth_token (auth_state : Option (Option String)) : Except PyExc String :=
  match auth_state with
  | none => Except.error (PyExc.runtimeError "KBase authentication state is missing.")
  | some tok =>
    match tok with
    | none => Except.error
        (PyExc.runtimeError "KBase authentication token is missing from auth_state.")
    | some t =>
      if t = "" then
        Except.error
          (PyExc.runtimeError "KBase authentication token is missing from auth_state.")
      else Except.ok t

/-- The parameter names of `SparkClusterManager.__init__` (spark_utils.py,
line 90) besides `self`. -/
def sparkClusterManagerInitParams : List String :=
  ["kbase_auth_token", "api_url", "user_options"]

/-- Python keyword-argument binding for a call to
`SparkClusterManager(...)`: a keyword argument whose name is not a parameter
of `__init__` raises `TypeError`. -/
def sparkClusterManagerInit (kwargs : List String) : Except PyExc Unit :=
  if kwargs.all (fun k => sparkClusterManagerInitParams.contains k) then Except.ok ()
  else Except.error (PyExc.typeError "unexpected keyword argument environment")

/-- The provisioning calls a hook can make, recorded in order. -/
inductive HookCall where
  | setGovCreds
  | startCluster
  | stopCluster
  | unbindService
deriving DecidableEq

/-- Result of running a hook: the spawner environment afterwards, the
provisioning calls made, and the hook's own outcome. -/
structure HookResult where
  env : Env
  calls : List HookCall
  outcome : Except PyExc Unit

/-- `post_stop_hook` (hooks.py, lines 101-113): read the token (fatal when
missing), short-circuit on the skip flag, compute the profile environment and
the merged dictionary, construct `SparkClusterManager` with the keyword
argument `environment=merged_env`, and call `stop_spark_cluster` on it.  The
hook contains no call to `delete_user_notebook_service`.  `skip_env` is
`os.environ["BERDL_SKIP_SPAWN_HOOKS"]` (`none` when unset, which raises
`KeyError`). -/
def post_stop_hook (auth_state : Option (Option String)) (skip_env : Option String)
    (profile_list : List Profile) (options_profile : Option String)
    (delete_fetch : DeleteFetch) (env : Env) : HookResult :=
  match get_auth_token auth_state with
  | Except.error e => ⟨env, [], Except.error e⟩
  | Except.ok _ =>
    match skip_env with
    | none => ⟨env, [], Except.error (PyExc.keyError "BERDL_SKIP_SPAWN_HOOKS")⟩
    | some sv =>
      if asciiLowerString sv = "true" then ⟨env, [], Except.ok ()⟩
      else
        let profile_env := get_profile_environment profile_list options_profile
        let _merged_env := envMergeList env profile_env
        match sparkClusterManagerInit ["environment"] with
        | Except.error e => ⟨env, [], Except.error e⟩
        | Except.ok _ =>
          -- continuation as written in the source: stop the cluster
          match stop_spark_cluster delete_fetch with
          | Except.ok _ => ⟨env, [HookCall.stopCluster], Except.ok ()⟩
          | Except.error e => ⟨env, [HookCall.stopCluster], Except.error e⟩

/-- `pre_spawn_hook` (hooks.py, lines 80-98): read the token (fatal when
missing), short-circuit on the skip flag, run
`set_governance_credentials` on the spawner environment, merge the profile
environment over it into `merged_env`, construct `SparkClusterManager` with
the keyword argument `environment=merged_env`, and call
`start_spark_cluster` on it (which writes `SPARK_MASTER_URL` into the spawner
environment). -/
def pre_spawn_hook (auth_state : Option (Option String)) (skip_env : Option String)
    (cfg : GovConfig) (gov_fetch : GovFetch) (profile_list : List Profile)
    (options_profile : Option String) (create_fetch : CreateFetch) (env : Env) :
    HookResult :=
  match get_auth_token auth_state with
  | Except.error e => ⟨env, [], Except.error e⟩
  | Except.ok _ =>
    match skip_env with
    | none => ⟨env, [], Except.error (PyExc.keyError "BERDL_SKIP_SPAWN_HOOKS")⟩
    | some sv =>
      if asciiLowerString sv = "true" then ⟨env, [], Except.ok ()⟩
      else
        let env1 := set_governance_credentials cfg gov_fetch env
        let profile_env := get_profile_environment profile_list options_profile
        let _merged_env := envMergeList env1 profile_env
        match sparkClusterManagerInit ["environment"] with
        | Except.error e => ⟨env1, [HookCall.setGovCreds], Except.error e⟩
        | Except.ok _ =>
          -- continuation as written in the source: start the cluster
          match start_spark_cluster create_fetch env1 with
          | Except.ok r =>
            ⟨r.2, [HookCall.setGovCreds, HookCall.startCluster], Except.ok ()⟩
          | Except.error _ =>
            ⟨env1, [HookCall.setGovCreds, HookCall.startCluster],
             Except.error (PyExc.runtimeError "SparkClusterError")⟩

/-! ## Theorems -/

/-- C1: for every call to `GovernanceUtils.set_governance_credentials`, no
failure of any kind (network error, non-2xx response, malformed body,
missing key, missing configuration) escapes — the function is total — and
on every failing run the target environment receives the denied bundle with
`MINIO_ACCESS_KEY == ""` and the fixed error message
"Failed to retrieve MinIO credentials. Please contact an administrator.". -/
theorem C1_provision_never_propagates (cfg : GovConfig) (fetch : GovFetch)
    (env : Env) (e : PyExc) (h : govAttempt cfg fetch env = Except.error e) :
    (set_governance_credentials cfg fetch env) "MINIO_ACCESS_KEY" = some "" ∧
    (set_governance_credentials cfg fetch env) "MINIO_SECRET_KEY" = some "" ∧
    (set_governance_credentials cfg fetch env) "MINIO_CONFIG_ERROR" =
      some minioErrorMessage := by
  unfold set_governance_credentials
  rw [h]
  exact ⟨rfl, rfl, rfl⟩

/-- Witness for C1 at a concrete failing input: the governance URL is unset
(a `KeyError` inside the `try:` block). -/
theorem C1_provision_never_propagates_witness :
    (set_governance_credentials ⟨none, none, none⟩ GovFetch.raise emptyEnv)
        "MINIO_ACCESS_KEY" = some "" ∧
    (set_governance_credentials ⟨none, none, none⟩ GovFetch.raise emptyEnv)
        "MINIO_SECRET_KEY" = some "" ∧
    (set_governance_credentials ⟨none, none, none⟩ GovFetch.raise emptyEnv)
        "MINIO_CONFIG_ERROR" = some minioErrorMessage :=
  C1_provision_never_propagates ⟨none, none, none⟩ GovFetch.raise emptyEnv
    (PyExc.keyError "GOVERNANCE_API_URL") rfl

/-- C3: `stop_spark_cluster` never raises: it evaluates to `.ok` on every
input, returning the parsed deletion result on HTTP 200/204 and `none` in
every other case (non-success status or transport exception). -/
theorem C3_stop_never_raises (fetch : DeleteFetch) :
    stop_spark_cluster fetch = Except.ok (match fetch with
      | DeleteFetch.raise => none
      | DeleteFetch.response status parsed _ =>
        if status = 200 ∨ status = 204 then parsed else none) := by
  cases fetch with
  | raise => rfl
  | response status parsed content =>
    by_cases h : status = 200 ∨ status = 204
    · simp [stop_spark_cluster, stopAttempt, h]
    · simp [stop_spark_cluster, stopAttempt, h]

/-- C2 counterexample: on a 201 response whose parsed body has an empty
master address, `start_spark_cluster` does raise a `SparkClusterError`, but
that error is the `masterUrlMissing` raise, which carries only the parsed
response — not the HTTP status and raw response body the claim promises for
every failing outcome. -/
theorem C2_counterexample :
    start_spark_cluster
        (CreateFetch.response 201 (some ⟨"cluster-1", "", ""⟩) (some "body"))
        emptyEnv =
      Except.error (SparkClusterErrorPayload.masterUrlMissing ⟨"cluster-1", "", ""⟩) ∧
    ¬ ∃ operation status content,
        start_spark_cluster
            (CreateFetch.response 201 (some ⟨"cluster-1", "", ""⟩) (some "body"))
            emptyEnv =
          Except.error (SparkClusterErrorPayload.apiError operation status content) := by
  refine ⟨rfl, ?_⟩
  rintro ⟨operation, status, content, h⟩
  rw [show start_spark_cluster
      (CreateFetch.response 201 (some ⟨"cluster-1", "", ""⟩) (some "body")) emptyEnv =
      Except.error (SparkClusterErrorPayload.masterUrlMissing ⟨"cluster-1", "", ""⟩)
    from rfl] at h
  simp at h

/-- C2 amended: cluster creation through `start_spark_cluster` succeeds iff
the response is HTTP 201 with a parsed body containing a non-empty master
address.  Every non-201 or unparsed response raises `SparkClusterError`
carrying the status and response body; a 201 response with a parsed body but
an empty master address raises `SparkClusterError` carrying the parsed
response (not the status); a transport exception propagates. -/
theorem C2_create_success_iff (status : Nat) (parsed : Option SparkClusterCreateResponse)
    (content : Option String) (env : Env) :
    ((∃ v, start_spark_cluster (CreateFetch.response status parsed content) env =
        Except.ok v) ↔
      (status = 201 ∧ ∃ r, parsed = some r ∧ r.master_url ≠ "")) ∧
    (status ≠ 201 ∨ parsed = none →
      start_spark_cluster (CreateFetch.response status parsed content) env =
        Except.error (SparkClusterErrorPayload.apiError "Cluster creation" status content)) ∧
    (∀ r, parsed = some r → status = 201 → r.master_url = "" →
      start_spark_cluster (CreateFetch.response status parsed content) env =
        Except.error (SparkClusterErrorPayload.masterUrlMissing r)) ∧
    (∀ r, parsed = some r → status = 201 → r.master_url ≠ "" →
      start_spark_cluster (CreateFetch.response status parsed content) env =
        Except.ok (r.master_url, envSet env "SPARK_MASTER_URL" r.master_url)) ∧
    (start_spark_cluster CreateFetch.raise env =
      Except.error SparkClusterErrorPayload.transport) := by
  refine ⟨?_, ?_, ?_, ?_, rfl⟩
  · cases parsed with
    | none => simp [start_spark_cluster, create_cluster]
    | some r =>
      by_cases h201 : status = 201
      · by_cases hurl : r.master_url = "" <;>
          simp [start_spark_cluster, create_cluster, h201, hurl]
      · simp [start_spark_cluster, create_cluster, h201]
  · rintro (h | h)
    · cases parsed <;> simp [start_spark_cluster, create_cluster, h]
    · subst h
      by_cases h201 : status = 201 <;> simp [start_spark_cluster, create_cluster, h201]
  · rintro r rfl rfl hurl
    simp [start_spark_cluster, create_cluster, hurl]
  · rintro r rfl rfl hurl
    simp [start_spark_cluster, create_cluster, hurl]

/-- Witness for C2 at concrete inputs: a 400 response raises the
status-carrying error, and a 201 response with an empty master address
raises the `masterUrlMissing` error. -/
theorem C2_create_success_iff_witness :
    start_spark_cluster (CreateFetch.response 400 none (some "oops")) emptyEnv =
      Except.error (SparkClusterErrorPayload.apiError "Cluster creation" 400 (some "oops")) ∧
    start_spark_cluster
        (CreateFetch.response 201 (some ⟨"c1", "", ""⟩) (some "body")) emptyEnv =
      Except.error (SparkClusterErrorPayload.masterUrlMissing ⟨"c1", "", ""⟩) ∧
    start_spark_cluster
        (CreateFetch.response 201 (some ⟨"c1", "spark://m:7077", "u"⟩) none) emptyEnv =
      Except.ok ("spark://m:7077", envSet emptyEnv "SPARK_MASTER_URL" "spark://m:7077") :=
  ⟨(C2_create_success_iff 400 none (some "oops") emptyEnv).2.1 (Or.inl (by decide)),
   (C2_create_success_iff 201 (some ⟨"c1", "", ""⟩) (some "body") emptyEnv).2.2.1
     ⟨"c1", "", ""⟩ rfl rfl rfl,
   (C2_create_success_iff 201 (some ⟨"c1", "spark://m:7077", "u"⟩) none emptyEnv).2.2.2.1
     ⟨"c1", "spark://m:7077", "u"⟩ rfl rfl (by decide)⟩

/-- C5 counterexample: resolving the unknown selection key "mystery-tier"
against the `PROFILES` table {small, medium, large} returns the *small*
profile, not the large one the claim designates. -/
theorem C5_counterexample :
    ClusterDefaults.from_profile "mystery-tier" =
      { worker_count := 1, worker_cores := 1, worker_memory := "2GiB",
        master_cores := 1, master_memory := "1GiB" } ∧
    ClusterDefaults.from_profile "mystery-tier" ≠
      { worker_count := 4, worker_cores := 1, worker_memory := "32GiB",
        master_cores := 1, master_memory := "16GiB" } := by
  exact ⟨rfl, by decide⟩

/-- C5 amended: for every unknown or missing profile-selection key the code
falls back deterministically and without error to the *small*/first
designated default: `ClusterDefaults.from_profile` returns the `"small"`
profile for every slug outside the table, and the profile-list selection of
`_get_profile_environment` falls back to the first profile of the list when
no regenerated slug matches. -/
theorem C5_unknown_key_falls_back_to_small (key : String) (profile_list : List Profile)
    (h : ClusterDefaults.PROFILES.lookup key = none)
    (hf : profile_list.find? (fun p => generated_slug p.display_name = key) = none) :
    ClusterDefaults.from_profile key =
      { worker_count := 1, worker_cores := 1, worker_memory := "2GiB",
        master_cores := 1, master_memory := "1GiB" } ∧
    selectProfile profile_list (some key) = profile_list.head? := by
  constructor
  · unfold ClusterDefaults.from_profile
    rw [h]
    rfl
  · cases profile_list with
    | nil => rfl
    | cons p ps => simp [selectProfile, hf]

/-- Witness for C5 at the concrete inputs of the claim's scenario. -/
theorem C5_unknown_key_falls_back_to_small_witness :
    ClusterDefaults.from_profile "mystery-tier" =
      { worker_count := 1, worker_cores := 1, worker_memory := "2GiB",
        master_cores := 1, master_memory := "1GiB" } ∧
    selectProfile [⟨"Small Server (2G RAM, 1 CPU)", []⟩,
                   ⟨"Medium Server (8G RAM, 2 CPU)", []⟩,
                   ⟨"Large Server (32G RAM, 4 CPU)", []⟩] (some "mystery-tier") =
      some ⟨"Small Server (2G RAM, 1 CPU)", []⟩ := by
  have h := C5_unknown_key_falls_back_to_small "mystery-tier"
    [⟨"Small Server (2G RAM, 1 CPU)", []⟩,
     ⟨"Medium Server (8G RAM, 2 CPU)", []⟩,
     ⟨"Large Server (32G RAM, 4 CPU)", []⟩] (by decide) (by decide)
  exact ⟨h.1, h.2⟩

/-- C6: `validate_token` fails with an `AuthenticationError` carrying
HTTP-equivalent status 403 and the sorted, comma-joined list of acceptable
roles whenever the user's role set does not intersect the configured
approved role set; when the role set intersects the approved set but not the
full-admin set (and the identity lookup carries a principal id), validation
succeeds and the returned principal's privilege is `NONE`. -/
theorem C6_role_gate (auth : KBaseAuth) (token : String)
    (token_data : TokenData) (me_data : MeData) (htok : token ≠ "") :
    (rolesIntersect me_data.customroles auth.approved_roles = false →
      validate_token auth token token_data me_data =
        Except.error (AuthFailure.authError 403 (accessDeniedMessage auth.approved_roles))) ∧
    (∀ username, rolesIntersect me_data.customroles auth.approved_roles = true →
      rolesIntersect me_data.customroles auth.full_roles = false →
      me_data.user = some username → username ≠ "" →
      validate_token auth token token_data me_data =
        Except.ok ⟨username, AdminPermission.NONE, token,
                   expiresOf token_data.expires, token_data.mfa⟩) := by
  constructor
  · intro hroles
    simp [validate_token, htok, hroles]
  · intro username happroved hfull huser hname
    simp [validate_token, htok, happroved, huser, hname, KBaseAuth.get_role, hfull]

/-- Witness for C6 at the spec's two scenarios: role set {"researcher"} with
approved roles {"kbase_user", "researcher"} validates with privilege `NONE`,
and role set {"guest"} with approved roles {"kbase_user"} is denied with a
403 listing "kbase_user". -/
theorem C6_role_gate_witness :
    validate_token (KBaseAuth.make [] ["kbase_user", "researcher"]) "tok"
        ⟨none, none⟩ ⟨["researcher"], some "alice"⟩ =
      Except.ok ⟨"alice", AdminPermission.NONE, "tok", none, none⟩ ∧
    validate_token (KBaseAuth.make [] ["kbase_user"]) "tok"
        ⟨none, none⟩ ⟨["guest"], some "bob"⟩ =
      Except.error (AuthFailure.authError 403 (accessDeniedMessage ["kbase_user"])) := by
  constructor
  · exact (C6_role_gate (KBaseAuth.make [] ["kbase_user", "researcher"]) "tok"
      ⟨none, none⟩ ⟨["researcher"], some "alice"⟩ (by decide)).2 "alice"
      (by decide) (by decide) rfl (by decide)
  · exact (C6_role_gate (KBaseAuth.make [] ["kbase_user"]) "tok"
      ⟨none, none⟩ ⟨["guest"], some "bob"⟩ (by decide)).1 (by decide)

/-- Every toleration built by the `try:` block has `operator = "Equal"`. -/
theorem parseToleration_ok_operator (s : String) (tol : V1Toleration)
    (h : parseToleration s = Except.ok tol) : tol.operator = "Equal" := by
  unfold parseToleration at h
  split at h
  · exact absurd h (by simp)
  · dsimp only at h
    split at h
    · exact (Except.ok.inj h) ▸ rfl
    · exact absurd h (by simp)

/-- The `try:` block raises only `ValueError`. -/
theorem parseToleration_error_is_valueError (s : String) (e : PyExc)
    (h : parseToleration s = Except.error e) : ∃ m, e = PyExc.valueError m := by
  unfold parseToleration at h
  split at h
  · exact ⟨_, (Except.error.inj h).symm⟩
  · dsimp only at h
    split at h
    · exact absurd h (by simp)
    · exact ⟨_, (Except.error.inj h).symm⟩

/-- The loop of `parse_tolerations_from_env` preserves the invariant: it
never propagates an exception and every accumulated toleration has
`operator = "Equal"`. -/
theorem tolerationLoop_invariant (parts : List String) :
    ∀ acc : List V1Toleration, (∀ t ∈ acc, t.operator = "Equal") →
      ∃ l, parts.foldlM tolerationStep acc = Except.ok l ∧
        ∀ t ∈ l, t.operator = "Equal" := by
  induction parts with
  | nil => exact fun acc hacc => ⟨acc, rfl, hacc⟩
  | cons part rest ih =>
    intro acc hacc
    show ∃ l, (tolerationStep acc part >>= fun acc' => rest.foldlM tolerationStep acc') =
      Except.ok l ∧ ∀ t ∈ l, t.operator = "Equal"
    unfold tolerationStep
    by_cases hempty : part.trim = ""
    · simp only [hempty, if_pos rfl]
      obtain ⟨l, hl, hop⟩ := ih acc hacc
      exact ⟨l, by simpa using hl, hop⟩
    · simp only [if_neg hempty]
      cases hp : parseToleration part.trim with
      | ok tol =>
        have hop := parseToleration_ok_operator part.trim tol hp
        have hacc' : ∀ t ∈ acc ++ [tol], t.operator = "Equal" := by
          intro t ht
          rcases List.mem_append.mp ht with h | h
          · exact hacc t h
          · rw [List.mem_singleton.mp h]; exact hop
        obtain ⟨l, hl, hlop⟩ := ih (acc ++ [tol]) hacc'
        exact ⟨l, by simpa using hl, hlop⟩
      | error e =>
        obtain ⟨m, rfl⟩ := parseToleration_error_is_valueError part.trim e hp
        obtain ⟨l, hl, hlop⟩ := ih acc hacc
        exact ⟨l, by simpa using hl, hlop⟩

/-- C10: `parse_tolerations_from_env` is total — for every input string it
returns a list without raising (malformed entries are skipped) — and every
toleration in the returned list has operator "Equal". -/
theorem C10_parse_tolerations_total (tolerations_env : String) :
    ∃ l, parse_tolerations_from_env tolerations_env = Except.ok l ∧
      ∀ t ∈ l, t.operator = "Equal" :=
  tolerationLoop_invariant (tolerations_env.splitOn ",") [] (by simp)

/-- C4: evaluation of `post_stop_hook` at a run with a valid session token
and the skip flag unset.  The hook makes *no* provisioning call at all — in
particular it never invokes `delete_user_notebook_service` (no call site
exists in its body) — and it raises `TypeError`, because it constructs
`SparkClusterManager` with the keyword argument `environment=merged_env`
that `__init__` does not accept. -/
theorem C4_post_stop_hook_evaluation :
    (post_stop_hook (some (some "kbase-token")) (some "false")
        [⟨"Small Server (2G RAM, 1 CPU)", []⟩] none
        (DeleteFetch.response 200 (some ⟨"deleted"⟩) none) emptyEnv).calls = [] ∧
    (post_stop_hook (some (some "kbase-token")) (some "false")
        [⟨"Small Server (2G RAM, 1 CPU)", []⟩] none
        (DeleteFetch.response 200 (some ⟨"deleted"⟩) none) emptyEnv).outcome =
      Except.error (PyExc.typeError "unexpected keyword argument environment") ∧
    (∀ auth_state skip_env profile_list options_profile delete_fetch env,
      HookCall.unbindService ∉
        (post_stop_hook auth_state skip_env profile_list options_profile
          delete_fetch env).calls) := by
  refine ⟨rfl, rfl, ?_⟩
  intro auth_state skip_env profile_list options_profile delete_fetch env
  unfold post_stop_hook
  split
  · simp
  · split
    · simp
    · split
      · simp
      · split
        · simp
        · split <;> simp

/-- C8: evaluation of `pre_spawn_hook` at a run with a valid token, the skip
flag unset, a successful governance fetch, and a profile whose environment
overrides `MINIO_ACCESS_KEY`.  The provisioning results are written straight
into the spawner environment first; the profile overrides are merged *over*
them into a separate `merged_env` dictionary (so the profile layer, not the
provisioning layer, wins on collision there); and the hook then raises
`TypeError` (`SparkClusterManager` has no `environment` parameter), so the
cluster address is never written and the spawn path fails. -/
theorem C8_pre_spawn_hook_evaluation :
    (pre_spawn_hook (some (some "kbase-token")) (some "false")
        ⟨some "http://gov", some "http://minio", none⟩
        (GovFetch.response 200 (some ⟨some "GOVKEY", some "GOVSECRET"⟩))
        [⟨"Small Server (2G RAM, 1 CPU)", [("MINIO_ACCESS_KEY", "PROFILE_OVERRIDE")]⟩]
        none (CreateFetch.response 201 (some ⟨"c1", "spark://m:7077", "u"⟩) none)
        emptyEnv).outcome =
      Except.error (PyExc.typeError "unexpected keyword argument environment") ∧
    (pre_spawn_hook (some (some "kbase-token")) (some "false")
        ⟨some "http://gov", some "http://minio", none⟩
        (GovFetch.response 200 (some ⟨some "GOVKEY", some "GOVSECRET"⟩))
        [⟨"Small Server (2G RAM, 1 CPU)", [("MINIO_ACCESS_KEY", "PROFILE_OVERRIDE")]⟩]
        none (CreateFetch.response 201 (some ⟨"c1", "spark://m:7077", "u"⟩) none)
        emptyEnv).env "MINIO_ACCESS_KEY" = some "GOVKEY" ∧
    (pre_spawn_hook (some (some "kbase-token")) (some "false")
        ⟨some "http://gov", some "http://minio", none⟩
        (GovFetch.response 200 (some ⟨some "GOVKEY", some "GOVSECRET"⟩))
        [⟨"Small Server (2G RAM, 1 CPU)", [("MINIO_ACCESS_KEY", "PROFILE_OVERRIDE")]⟩]
        none (CreateFetch.response 201 (some ⟨"c1", "spark://m:7077", "u"⟩) none)
        emptyEnv).env "SPARK_MASTER_URL" = none ∧
    (pre_spawn_hook (some (some "kbase-token")) (some "false")
        ⟨some "http://gov", some "http://minio", none⟩
        (GovFetch.response 200 (some ⟨some "GOVKEY", some "GOVSECRET"⟩))
        [⟨"Small Server (2G RAM, 1 CPU)", [("MINIO_ACCESS_KEY", "PROFILE_OVERRIDE")]⟩]
        none (CreateFetch.response 201 (some ⟨"c1", "spark://m:7077", "u"⟩) none)
        emptyEnv).calls = [HookCall.setGovCreds] ∧
    envMergeList
        (set_governance_credentials ⟨some "http://gov", some "http://minio", none⟩
          (GovFetch.response 200 (some ⟨some "GOVKEY", some "GOVSECRET"⟩)) emptyEnv)
        (get_profile_environment
          [⟨"Small Server (2G RAM, 1 CPU)", [("MINIO_ACCESS_KEY", "PROFILE_OVERRIDE")]⟩]
          none)
        "MINIO_ACCESS_KEY" = some "PROFILE_OVERRIDE" :=
  ⟨rfl, rfl, rfl, rfl, rfl⟩

/-! ### Helper lemmas about the sanitisation stages -/

/-- A character surviving `dropWhile p` at the head falsifies `p`. -/
theorem head?_dropWhile_not (p : Char → Bool) (l : List Char) (c : Char)
    (h : (l.dropWhile p).head? = some c) : p c = false := by
  induction l with
  | nil => simp [List.dropWhile] at h
  | cons a t ih =>
    by_cases hpa : p a = true
    · rw [List.dropWhile_cons_of_pos hpa] at h
      exact ih h
    · rw [List.dropWhile_cons_of_neg hpa] at h
      simp only [List.head?_cons, Option.some.injEq] at h
      rw [← h]
      exact Bool.not_eq_true _ ▸ hpa

/-- `dropWhile` removes an initial segment. -/
theorem dropWhile_eq_append (p : Char → Bool) (l : List Char) :
    ∃ t, t ++ l.dropWhile p = l := by
  induction l with
  | nil => exact ⟨[], rfl⟩
  | cons a t ih =>
    by_cases hpa : p a = true
    · obtain ⟨u, hu⟩ := ih
      exact ⟨a :: u, by rw [List.dropWhile_cons_of_pos hpa, List.cons_append, hu]⟩
    · exact ⟨[], by rw [List.dropWhile_cons_of_neg hpa, List.nil_append]⟩

/-- The head surviving the leading strip is alphanumeric. -/
theorem stripLeading_head?_alnum (l : List Char) (c : Char)
    (h : (stripLeading l).head? = some c) : isLowerAlnum c = true := by
  have := head?_dropWhile_not (fun c => !isLowerAlnum c) l c h
  simpa using this

/-- The last character surviving the trailing strip is alphanumeric. -/
theorem stripTrailing_getLast?_alnum (l : List Char) (c : Char)
    (h : (stripTrailing l).getLast? = some c) : isLowerAlnum c = true := by
  unfold stripTrailing at h
  rw [List.getLast?_reverse] at h
  have := head?_dropWhile_not (fun c => !isLowerAlnum c) l.reverse c h
  simpa using this

/-- The trailing strip only removes a suffix. -/
theorem stripTrailing_append (l : List Char) : ∃ t, stripTrailing l ++ t = l := by
  obtain ⟨t, ht⟩ := dropWhile_eq_append (fun c => !isLowerAlnum c) l.reverse
  refine ⟨t.reverse, ?_⟩
  unfold stripTrailing
  calc (l.reverse.dropWhile (fun c => !isLowerAlnum c)).reverse ++ t.reverse
      = (t ++ l.reverse.dropWhile (fun c => !isLowerAlnum c)).reverse := by
        rw [List.reverse_append]
    _ = l.reverse.reverse := by rw [ht]
    _ = l := List.reverse_reverse l

/-- The trailing strip preserves the head when its result is non-empty. -/
theorem stripTrailing_head? (l : List Char) (c : Char)
    (h : (stripTrailing l).head? = some c) : l.head? = some c := by
  obtain ⟨t, ht⟩ := stripTrailing_append l
  cases hs : stripTrailing l with
  | nil => rw [hs] at h; simp at h
  | cons x xs =>
    rw [hs] at h
    simp only [List.head?_cons, Option.some.injEq] at h
    rw [← ht, hs, List.cons_append, List.head?_cons, h]

/-- Members of the collapsed list are members of the original. -/
theorem mem_collapseDashes (l : List Char) (c : Char) (h : c ∈ collapseDashes l) :
    c ∈ l := by
  induction l with
  | nil => simp [collapseDashes] at h
  | cons a t ih =>
    cases t with
    | nil => simp [collapseDashes] at h; simp [h]
    | cons b u =>
      unfold collapseDashes at h
      by_cases hab : (a == '-' && b == '-') = true
      · rw [if_pos hab] at h
        exact List.mem_cons_of_mem a (ih h)
      · rw [if_neg hab] at h
        rcases List.mem_cons.mp h with rfl | h
        · exact List.mem_cons_self _ _
        · exact List.mem_cons_of_mem a (ih h)

/-- The collapse preserves the optional head. -/
theorem collapseDashes_head? (l : List Char) : (collapseDashes l).head? = l.head? := by
  induction l with
  | nil => rfl
  | cons a t ih =>
    cases t with
    | nil => rfl
    | cons b u =>
      unfold collapseDashes
      by_cases hab : (a == '-' && b == '-') = true
      · rw [if_pos hab, ih]
        simp only [Bool.and_eq_true, beq_iff_eq] at hab
        rw [hab.1, hab.2]
        rfl
      · rw [if_neg hab]
        rfl

/-- The collapse of a non-empty list is non-empty. -/
theorem collapseDashes_ne_nil : ∀ l : List Char, l ≠ [] → collapseDashes l ≠ [] := by
  intro l
  induction l with
  | nil => exact fun h => absurd rfl h
  | cons a t ih =>
    intro _
    cases t with
    | nil => simp [collapseDashes]
    | cons b u =>
      unfold collapseDashes
      by_cases hab : (a == '-' && b == '-') = true
      · rw [if_pos hab]; exact ih (by simp)
      · rw [if_neg hab]; simp

/-- The collapse preserves the optional last element. -/
theorem collapseDashes_getLast? (l : List Char) :
    (collapseDashes l).getLast? = l.getLast? := by
  induction l with
  | nil => rfl
  | cons a t ih =>
    cases t with
    | nil => rfl
    | cons b u =>
      unfold collapseDashes
      by_cases hab : (a == '-' && b == '-') = true
      · rw [if_pos hab, ih, List.getLast?_cons_cons]
      · rw [if_neg hab]
        cases hX : collapseDashes (b :: u) with
        | nil => exact absurd hX (collapseDashes_ne_nil (b :: u) (by simp))
        | cons x xs =>
          rw [hX] at ih
          rw [List.getLast?_cons_cons, List.getLast?_cons_cons, ih]

/-- Unfolding `noDoubleDash` on two cons cells, in propositional form. -/
theorem noDoubleDash_cons_cons (a b : Char) (u : List Char) :
    noDoubleDash (a :: b :: u) = true ↔
      (¬(a = '-' ∧ b = '-') ∧ noDoubleDash (b :: u) = true) := by
  rw [show noDoubleDash (a :: b :: u) =
      (!(a == '-' && b == '-') && noDoubleDash (b :: u)) from rfl]
  simp only [Bool.and_eq_true, Bool.not_eq_true', Bool.and_eq_false_iff,
    beq_eq_false_iff_ne, ne_eq, beq_iff_eq]
  tauto

/-- The collapse leaves no two adjacent hyphens. -/
theorem noDoubleDash_collapseDashes (l : List Char) :
    noDoubleDash (collapseDashes l) = true := by
  induction l with
  | nil => rfl
  | cons a t ih =>
    cases t with
    | nil => rfl
    | cons b u =>
      unfold collapseDashes
      by_cases hab : (a == '-' && b == '-') = true
      · rw [if_pos hab]; exact ih
      · rw [if_neg hab]
        cases hX : collapseDashes (b :: u) with
        | nil => rfl
        | cons x xs =>
          refine (noDoubleDash_cons_cons a x xs).mpr ⟨?_, ?_⟩
          · have hx : x = b := by
              have hh := collapseDashes_head? (b :: u)
              rw [hX] at hh
              simpa using hh
            subst hx
            intro hc
            exact hab (by simp [hc.1, hc.2])
          · rw [← hX]
            exact ih

/-- A list with no two adjacent hyphens is a fixed point of the collapse. -/
theorem collapseDashes_eq_self (l : List Char) (h : noDoubleDash l = true) :
    collapseDashes l = l := by
  induction l with
  | nil => rfl
  | cons a t ih =>
    cases t with
    | nil => rfl
    | cons b u =>
      have hcc := (noDoubleDash_cons_cons a b u).mp h
      have hne : ¬ ((a == '-' && b == '-') = true) := by
        intro hc
        simp only [Bool.and_eq_true, beq_iff_eq] at hc
        exact hcc.1 hc
      unfold collapseDashes
      rw [if_neg hne, ih hcc.2]

/-- A valid character is a fixed point of the ASCII lowering. -/
theorem asciiLowerChar_eq_self (c : Char) (h : validChar c = true) :
    asciiLowerChar c = c := by
  have hA : 'A'.toNat = 65 := rfl
  have hZ : 'Z'.toNat = 90 := rfl
  have ha : 'a'.toNat = 97 := rfl
  have hz : 'z'.toNat = 122 := rfl
  have h0 : '0'.toNat = 48 := rfl
  have h9 : '9'.toNat = 57 := rfl
  have hcond : ¬ (('A'.toNat ≤ c.toNat && c.toNat ≤ 'Z'.toNat) = true) := by
    intro hcontra
    simp only [Bool.and_eq_true, decide_eq_true_eq] at hcontra
    unfold validChar isLowerAlnum at h
    simp only [Bool.or_eq_true, Bool.and_eq_true, decide_eq_true_eq, beq_iff_eq] at h
    rcases h with ((⟨h1, h2⟩ | ⟨h1, h2⟩) | h) | h
    · omega
    · omega
    · subst h
      have hdot : ('.' : Char).toNat = 46 := rfl
      omega
    · subst h
      have hdash : ('-' : Char).toNat = 45 := rfl
      omega
  unfold asciiLowerChar
  rw [if_neg hcond]

/-- The ASCII case mapping satisfies the documented fixed-point property of
Python's `str.lower()` on the kept character class. -/
theorem asciiLowerMap_fixes : lowerFixesValid asciiLowerMap := by
  intro c hc
  show [asciiLowerChar c] = [c]
  rw [asciiLowerChar_eq_self c hc]

/-- All-valid lists are fixed points of the lowering stage, for every case
mapping with the documented fixed-point property. -/
theorem pyLower_eq_self (low : PyLower) (hfix : lowerFixesValid low)
    (l : List Char) (h : ∀ c ∈ l, validChar c = true) :
    pyLower low l = l := by
  induction l with
  | nil => rfl
  | cons a t ih =>
    show low a ++ pyLower low t = a :: t
    rw [hfix a (h a (List.mem_cons_self a t)),
        ih (fun c hc => h c (List.mem_cons_of_mem a hc))]
    rfl

/-- All-valid lists are fixed points of the replacement stage. -/
theorem replaceInvalid_eq_self (l : List Char) (h : ∀ c ∈ l, validChar c = true) :
    replaceInvalid l = l := by
  induction l with
  | nil => rfl
  | cons a t ih =>
    have ht := ih (fun c hc => h c (List.mem_cons_of_mem a hc))
    unfold replaceInvalid at ht ⊢
    rw [List.map_cons, ht]
    simp [h a (List.mem_cons_self a t)]

/-- A list whose head is alphanumeric is a fixed point of the leading
strip. -/
theorem stripLeading_eq_self (l : List Char)
    (h : ∀ c, l.head? = some c → isLowerAlnum c = true) : stripLeading l = l := by
  unfold stripLeading
  cases l with
  | nil => rfl
  | cons a t =>
    rw [List.dropWhile_cons_of_neg]
    simp [h a rfl]

/-- A list whose last element is alphanumeric is a fixed point of the
trailing strip. -/
theorem stripTrailing_eq_self (l : List Char)
    (h : ∀ c, l.getLast? = some c → isLowerAlnum c = true) : stripTrailing l = l := by
  unfold stripTrailing
  cases hrev : l.reverse with
  | nil =>
    rw [List.dropWhile_nil, List.reverse_nil]
    exact (List.reverse_eq_nil_iff.mp hrev).symm
  | cons x xs =>
    have hx : l.getLast? = some x := by
      rw [← List.head?_reverse, hrev]
      rfl
    rw [List.dropWhile_cons_of_neg (by simp [h x hx]), ← hrev, List.reverse_reverse]

/-- Members of the trailing strip are members of the original list. -/
theorem mem_stripTrailing (l : List Char) (c : Char) (h : c ∈ stripTrailing l) :
    c ∈ l := by
  unfold stripTrailing at h
  rw [List.mem_reverse] at h
  exact List.mem_reverse.mp ((List.dropWhile_sublist _).mem h)

/-- Members of the leading strip are members of the original list. -/
theorem mem_stripLeading (l : List Char) (c : Char) (h : c ∈ stripLeading l) :
    c ∈ l :=
  (List.dropWhile_sublist _).mem h

/-- Every character produced by the replacement stage is valid. -/
theorem mem_replaceInvalid_valid (l : List Char) (c : Char)
    (h : c ∈ replaceInvalid l) : validChar c = true := by
  unfold replaceInvalid at h
  obtain ⟨a, _, ha⟩ := List.mem_map.mp h
  by_cases hv : validChar a = true
  · rw [if_pos hv] at ha
    rw [← ha]
    exact hv
  · rw [if_neg hv] at ha
    rw [← ha]
    rfl

/-- Every character of the core sanitisation result is valid, for every
case mapping: the replacement stage runs after the lowering and forces the
class. -/
theorem mem_sanitizeCore_valid (low : PyLower) (l : List Char) (c : Char)
    (h : c ∈ sanitizeCore low l) : validChar c = true := by
  unfold sanitizeCore at h
  exact mem_replaceInvalid_valid _ c
    (mem_stripLeading _ c (mem_stripTrailing _ c (mem_collapseDashes _ c h)))

/-- The head of the core sanitisation result is alphanumeric, for every
case mapping. -/
theorem sanitizeCore_head?_alnum (low : PyLower) (l : List Char) (c : Char)
    (h : (sanitizeCore low l).head? = some c) : isLowerAlnum c = true := by
  unfold sanitizeCore at h
  rw [collapseDashes_head?] at h
  exact stripLeading_head?_alnum _ c (stripTrailing_head? _ c h)

/-- The last character of the core sanitisation result is alphanumeric, for
every case mapping. -/
theorem sanitizeCore_getLast?_alnum (low : PyLower) (l : List Char) (c : Char)
    (h : (sanitizeCore low l).getLast? = some c) : isLowerAlnum c = true := by
  unfold sanitizeCore at h
  rw [collapseDashes_getLast?] at h
  exact stripTrailing_getLast?_alnum _ c h

/-- The core sanitisation result has no two adjacent hyphens. -/
theorem sanitizeCore_noDD (low : PyLower) (l : List Char) :
    noDoubleDash (sanitizeCore low l) = true :=
  noDoubleDash_collapseDashes _

/-- The core sanitisation is idempotent, for every case mapping that fixes
the kept character class (as Python's `str.lower()` does). -/
theorem sanitizeCore_idem (low : PyLower) (hfix : lowerFixesValid low)
    (l : List Char) :
    sanitizeCore low (sanitizeCore low l) = sanitizeCore low l := by
  have hval : ∀ c ∈ sanitizeCore low l, validChar c = true :=
    fun c hc => mem_sanitizeCore_valid low l c hc
  show collapseDashes (stripTrailing (stripLeading (replaceInvalid
    (pyLower low (sanitizeCore low l))))) = sanitizeCore low l
  rw [pyLower_eq_self low hfix _ hval, replaceInvalid_eq_self _ hval,
      stripLeading_eq_self _ (fun c hc => sanitizeCore_head?_alnum low l c hc),
      stripTrailing_eq_self _ (fun c hc => sanitizeCore_getLast?_alnum low l c hc),
      collapseDashes_eq_self _ (sanitizeCore_noDD low l)]

/-- Taking a positive number of elements preserves the optional head. -/
theorem head?_take_of_pos {α : Type} (l : List α) (n : Nat) (h : 0 < n) :
    (l.take n).head? = l.head? := by
  cases n with
  | zero => exact absurd h (by simp)
  | succ m => cases l <;> rfl

/-- C7 counterexample: `sanitize_k8s_name` on `"a.b"` keeps the dot — the
result is not made of lowercase alphanumerics and the separator `-` alone,
so the claimed character set is wrong (the code also keeps `.`).  The input
is all ASCII, where `asciiLowerMap` coincides with Python's `str.lower()`,
so the evaluated value is the program's value. -/
theorem C7_counterexample :
    sanitize_k8s_name asciiLowerMap "a.b" = "a.b" ∧
    ¬ ((sanitize_k8s_name asciiLowerMap "a.b").data.all
        (fun c => isLowerAlnum c || c == '-') = true) := by
  exact ⟨by decide, by decide⟩

/-- C7 amended: for every case mapping — in particular Python's —
`sanitize_k8s_name` is deterministic; its result contains only lowercase
alphanumerics, the separator `-` and the dot `.`; it is at most 253
characters long; it never starts with a non-alphanumeric; and it never ends
with a non-alphanumeric provided the truncation does not fire, i.e. the
collapsed, stripped string reaching the `[:253]` step is at most 253
characters.  (An *input* bound does not give that guarantee: truncation can
leave a trailing separator, and because the Unicode case mapping can
lengthen the string, it can fire even for inputs of at most 253
characters — see `sanitize_expanding_lower_truncates`.) -/
theorem C7_sanitize_shape (low : PyLower) (s : String) :
    (∀ t : String, s = t →
      sanitize_k8s_name low s = sanitize_k8s_name low t) ∧
    ((sanitize_k8s_name low s).data.all validChar = true) ∧
    ((sanitize_k8s_name low s).length ≤ 253) ∧
    ((sanitize_k8s_name low s).data.head?.all isLowerAlnum = true) ∧
    ((sanitizeCore low s.data).length ≤ 253 →
      (sanitize_k8s_name low s).data.getLast?.all isLowerAlnum = true) := by
  have hdata : (sanitize_k8s_name low s).data =
      (sanitizeCore low s.data).take 253 := rfl
  refine ⟨fun t ht => ht ▸ rfl, ?_, ?_, ?_, ?_⟩
  · rw [hdata, List.all_eq_true]
    intro c hc
    exact mem_sanitizeCore_valid low s.data c ((List.take_sublist _ _).mem hc)
  · show ((sanitizeCore low s.data).take 253).length ≤ 253
    rw [List.length_take]
    exact min_le_left _ _
  · rw [hdata, head?_take_of_pos _ 253 (by norm_num)]
    cases hh : (sanitizeCore low s.data).head? with
    | none => rfl
    | some c => simpa using sanitizeCore_head?_alnum low s.data c hh
  · intro hcore
    rw [hdata, List.take_of_length_le hcore]
    cases hh : (sanitizeCore low s.data).getLast? with
    | none => rfl
    | some c => simpa using sanitizeCore_getLast?_alnum low s.data c hh

/-- Witness for C7 at a concrete input under the ASCII instance of the case
mapping, discharging the no-truncation hypothesis by evaluation. -/
theorem C7_sanitize_shape_witness :
    ((sanitize_k8s_name asciiLowerMap "Some_User").data.all validChar = true) ∧
    ((sanitize_k8s_name asciiLowerMap "Some_User").data.getLast?.all
        isLowerAlnum = true) :=
  ⟨(C7_sanitize_shape asciiLowerMap "Some_User").2.1,
   (C7_sanitize_shape asciiLowerMap "Some_User").2.2.2.2 (by decide)⟩

set_option maxRecDepth 4000 in
/-- C9 counterexample: a 254-character all-ASCII input (where `asciiLowerMap`
coincides with Python's `str.lower()`) whose 253rd character is a hyphen.
Truncation leaves a trailing hyphen, and the second application strips it,
so `sanitize_k8s_name` is not idempotent on this input. -/
theorem C9_counterexample :
    sanitize_k8s_name asciiLowerMap (sanitize_k8s_name asciiLowerMap
        ⟨List.replicate 252 'a' ++ ['-', 'b']⟩) ≠
      sanitize_k8s_name asciiLowerMap ⟨List.replicate 252 'a' ++ ['-', 'b']⟩ := by
  decide

/-- C9 amended: for every case mapping that fixes the kept class `[a-z0-9.-]`
(as Python's `str.lower()` does), `sanitize_k8s_name` is idempotent on every
input for which the 253-character truncation does not fire, i.e. the
collapsed, stripped string reaching the `[:253]` step is at most 253
characters.  Truncation can leave a trailing separator that a second
application strips; because the Unicode case mapping can lengthen the
string, an input bound of 253 characters does not rule truncation out — see
`sanitize_expanding_lower_truncates`. -/
theorem C9_sanitize_idem (low : PyLower) (s : String)
    (hfix : lowerFixesValid low)
    (h : (sanitizeCore low s.data).length ≤ 253) :
    sanitize_k8s_name low (sanitize_k8s_name low s) = sanitize_k8s_name low s := by
  have htake : sanitizeList low s.data = sanitizeCore low s.data := by
    unfold sanitizeList
    exact List.take_of_length_le h
  have hinner : (sanitize_k8s_name low s).data = sanitizeCore low s.data := htake
  have key : sanitizeList low ((sanitize_k8s_name low s).data) =
      sanitizeList low s.data := by
    rw [hinner, htake]
    unfold sanitizeList
    rw [sanitizeCore_idem low hfix]
    exact List.take_of_length_le h
  show (⟨sanitizeList low (sanitize_k8s_name low s).data⟩ : String) =
    ⟨sanitizeList low s.data⟩
  rw [key]

/-- Witness for C9 at a concrete short input under the ASCII instance,
discharging the fixed-point and no-truncation hypotheses. -/
theorem C9_sanitize_idem_witness :
    sanitize_k8s_name asciiLowerMap (sanitize_k8s_name asciiLowerMap "Some_User") =
      sanitize_k8s_name asciiLowerMap "Some_User" :=
  C9_sanitize_idem asciiLowerMap "Some_User" asciiLowerMap_fixes (by decide)

set_option maxRecDepth 4000 in
/-- Why the C7/C9 side conditions are about the string reaching the `[:253]`
step and not about the input length: with the expanding U+0130 entry of
Python's case mapping, the 253-character input of 251 `a`s, U+0130, `b`
lowers to 254 characters, the combining dot becomes `-`, truncation fires
and leaves a trailing `-`, and a second application strips it — so on this
length-253 input the program's result ends in a separator and is not
idempotent. -/
theorem sanitize_expanding_lower_truncates :
    (sanitize_k8s_name dottedILowerMap
        ⟨List.replicate 251 'a' ++ [Char.ofNat 304, 'b']⟩).data.getLast? =
      some '-' ∧
    sanitize_k8s_name dottedILowerMap (sanitize_k8s_name dottedILowerMap
        ⟨List.replicate 251 'a' ++ [Char.ofNat 304, 'b']⟩) ≠
      sanitize_k8s_name dottedILowerMap
        ⟨List.replicate 251 'a' ++ [Char.ofNat 304, 'b']⟩ := by
  exact ⟨by decide, by decide⟩
